import Mathlib

/-!
Shallow embedding of the terminal-session core of the `editeuren` editor
(src/src/main.rs).  Buffers are modelled as `List Char` (the Rust code only
ever appends ASCII text to a `String`); machine integers `u16`/`u32` become
`Nat` (the only subtraction, `width - len`, is shown not to underflow) and
the `i32` cursor coordinates become `Int`.  Fallible operations return
`Except`; the effects of the session loop (writes, reads, terminal-mode
restoration) are modelled as an explicit action trace driven by a list of
input events.
-/

/-- ANSI escape sequence `ESC [ 2 J` appended by `AnsiBuffer::clear_screen`. -/
def escClearScreen : List Char := ['\x1b', '[', '2', 'J']

/-- ANSI escape sequence `ESC [ K` appended by `AnsiBuffer::erase_to_end_of_line`. -/
def escEraseToEol : List Char := ['\x1b', '[', 'K']

/-- ANSI escape sequence `ESC [ H` appended by `AnsiBuffer::move_top_left`. -/
def escMoveTopLeft : List Char := ['\x1b', '[', 'H']

/-- ANSI escape sequence `ESC [ ? 2 5 h` appended by `AnsiBuffer::show_cursor`. -/
def escShowCursor : List Char := ['\x1b', '[', '?', '2', '5', 'h']

/-- ANSI escape sequence `ESC [ ? 2 5 l` appended by `AnsiBuffer::hide_cursor`. -/
def escHideCursor : List Char := ['\x1b', '[', '?', '2', '5', 'l']

/-- The carriage-return/line-feed pair the row loop appends after each row. -/
def crlf : List Char := ['\r', '\n']

/-- `AnsiBuffer::move_cursor_to(row, col)`: `format!("\x1b[\x7b\x7d;\x7b\x7dH", row + 1, col + 1)`. -/
def escMoveCursorTo (row col : Int) : List Char :=
  '\x1b' :: '[' :: ((toString (row + 1)).toList ++ ';' :: (toString (col + 1)).toList ++ ['H'])

/-- The append-only accumulator `AnsiBuffer { buffer: String }`. -/
structure AnsiBuffer where
  buffer : List Char
deriving DecidableEq

/-- `AnsiBuffer::new`. -/
def AnsiBuffer.new : AnsiBuffer := ⟨[]⟩

/-- `AnsiBuffer::append(str)` — `push_str`. -/
def AnsiBuffer.append (b : AnsiBuffer) (s : List Char) : AnsiBuffer :=
  ⟨b.buffer ++ s⟩

/-- `AnsiBuffer::clear_screen`. -/
def AnsiBuffer.clear_screen (b : AnsiBuffer) : AnsiBuffer := b.append escClearScreen

/-- `AnsiBuffer::erase_to_end_of_line`. -/
def AnsiBuffer.erase_to_end_of_line (b : AnsiBuffer) : AnsiBuffer := b.append escEraseToEol

/-- `AnsiBuffer::move_top_left`. -/
def AnsiBuffer.move_top_left (b : AnsiBuffer) : AnsiBuffer := b.append escMoveTopLeft

/-- `AnsiBuffer::show_cursor`. -/
def AnsiBuffer.show_cursor (b : AnsiBuffer) : AnsiBuffer := b.append escShowCursor

/-- `AnsiBuffer::hide_cursor`. -/
def AnsiBuffer.hide_cursor (b : AnsiBuffer) : AnsiBuffer := b.append escHideCursor

/-- `AnsiBuffer::move_cursor_to(row, col)`. -/
def AnsiBuffer.move_cursor_to (b : AnsiBuffer) (row col : Int) : AnsiBuffer :=
  b.append (escMoveCursorTo row col)

/-- `Keyboard::ctrl_key(c)`: `(c as u8 & 0x1f) as char`.  The cast `c as u8`
truncates to the low byte, then the mask clears the top three bits. -/
def ctrl_key (c : Char) : Char :=
  Char.ofNat ((c.toNat % 256) &&& 0x1f)

/-- The `Winsize` structure filled in by the `TIOCGWINSZ` ioctl (all fields `u16`). -/
structure Winsize where
  ws_row : Nat
  ws_col : Nat
  ws_xpixel : Nat
  ws_ypixel : Nat
deriving DecidableEq

/-- `Winsize::get`, as a function of the environment's response: `ioctl_ret` is
the return value of the `ioctl` call and `wz` the structure it filled in.
Returns `(ws_col, ws_row)` on a zero return code, an error otherwise —
exactly the `match` in the source, with no check on the field values. -/
def winsizeGet (ioctl_ret : Int) (wz : Winsize) : Except String (Nat × Nat) :=
  if ioctl_ret = 0 then Except.ok (wz.ws_col, wz.ws_row)
  else Except.error (toString ioctl_ret)

/-- `format!("Editeuren editor -- version \x7b\x7d", EDITEUREN_VERSION)` with
`EDITEUREN_VERSION = "11"` (all ASCII, so bytes and chars coincide). -/
def blurbText : List Char := ("Editeuren editor -- version " ++ "11").toList

/-- The banner after `blurb.truncate(self.width as usize)` (ASCII, so the
byte-count truncation is a character-count truncation). -/
def blurbLine (w : Nat) : List Char := blurbText.take w

/-- `pad_width = (self.width - len) / 2` where `len = blurb.chars().count()`. -/
def bannerPad (w : Nat) : Nat := (w - (blurbLine w).length) / 2

/-- Everything the banner branch of the row loop appends: padding, truncated
banner, erase-to-end-of-line, CRLF. -/
def bannerChunk (w : Nat) : List Char :=
  List.replicate (bannerPad w) ' ' ++ blurbLine w ++ escEraseToEol ++ crlf

/-- Everything the placeholder branch of the row loop appends: `~`,
erase-to-end-of-line, CRLF. -/
def tildeChunk : List Char :=
  '~' :: (escEraseToEol ++ crlf)

/-- What iteration `i` of the row loop in `Screen::draw_rows` appends. -/
def rowChunk (w h : Nat) (i : Nat) : List Char :=
  if i = h / 3 then bannerChunk w else tildeChunk

/-- The list of per-row chunks produced by `for i in 1..height`. -/
def bodyRows (w h : Nat) : List (List Char) :=
  (List.range' 1 (h - 1)).map (rowChunk w h)

/-- `Screen { width, height, cursor }` (stdout handle omitted; `width`/`height`
are `u32`, `cursor` is `(i32, i32)` as `(row, column)`). -/
structure Screen where
  width : Nat
  height : Nat
  cursor : Int × Int
deriving DecidableEq

/-- `Screen::draw_rows`: the row loop followed by the final
erase-to-end-of-line and unterminated `~`. -/
def Screen.draw_rows (s : Screen) (buffer : AnsiBuffer) : AnsiBuffer :=
  let buffer :=
    (List.range' 1 (s.height - 1)).foldl
      (fun b i => b.append (rowChunk s.width s.height i)) buffer
  (buffer.erase_to_end_of_line).append ['~']

/-- The characters `draw_rows` appends, on their own. -/
def drawBody (w h : Nat) : List Char :=
  (bodyRows w h).flatten ++ escEraseToEol ++ ['~']

/-- `Screen::update_cursor_location(row_delta, col_delta)`. -/
def Screen.update_cursor_location (s : Screen) (row_delta col_delta : Int) : Screen :=
  { s with cursor := (s.cursor.1 + row_delta, s.cursor.2 + col_delta) }

/-- `Screen::refresh`, as the frame it composes and emits in one write. -/
def Screen.refresh_frame (s : Screen) : List Char :=
  let buffer := AnsiBuffer.new
  let buffer := buffer.hide_cursor
  let buffer := buffer.move_top_left
  let buffer := s.draw_rows buffer
  let buffer := buffer.move_top_left
  let buffer := buffer.move_cursor_to s.cursor.1 s.cursor.2
  let buffer := buffer.show_cursor
  buffer.buffer

/-- The `Editor` record (keyboard handle and saved termios omitted: the saved
attributes are only threaded through to `restore_console`, which the trace
model below represents as an action). -/
structure Editor where
  screen : Screen
deriving DecidableEq

/-- `Editor::handle_navigation(key)` — the four-way `match` on the key. -/
def Editor.handle_navigation (e : Editor) (key : Char) : Editor :=
  if key = 'w' then { e with screen := e.screen.update_cursor_location (-1) 0 }
  else if key = 's' then { e with screen := e.screen.update_cursor_location 1 0 }
  else if key = 'a' then { e with screen := e.screen.update_cursor_location 0 (-1) }
  else if key = 'd' then { e with screen := e.screen.update_cursor_location 0 1 }
  else e

/-- `Editor::process_key`, as a function of the key `read_key` returned:
yields the updated editor, the quit flag, and the character echoed by
`print!` (if any).  The source first dispatches navigation, then matches:
the quit control-character returns `true`; every other key is printed. -/
def Editor.process_key (e : Editor) (key : Char) : Editor × Bool × Option Char :=
  let e := e.handle_navigation key
  if key = ctrl_key 'q' then (e, true, none)
  else (e, false, some key)

/-- One environment event per `run_loop` iteration: a key successfully read,
a failing `Screen::refresh` (its `io::Result` is `Err`), or a failing
`stdin.read` (which `read_key` turns into a panic). -/
inductive KeyEvent where
  | keyIn : Char → KeyEvent
  | renderFail : KeyEvent
  | readFail : KeyEvent
deriving DecidableEq

/-- Observable actions of a session run. -/
inductive SessionAction where
  | renderFrame : SessionAction
  | readKeyByte : SessionAction
  | echoChar : Char → SessionAction
  | restoreTermios : SessionAction
  | emitClearHome : SessionAction
deriving DecidableEq

/-- How a run of `run_loop` ended.  `ranOut` marks a trace that exhausted its
event list while still in the Running state (the real loop would block). -/
inductive LoopExit where
  | cleanQuit : LoopExit
  | renderError : LoopExit
  | fatalRead : LoopExit
  | ranOut : LoopExit
deriving DecidableEq

/-- `Editor::run_loop`, driven by the event list: each iteration renders
(`self.screen.refresh()?` — an `Err` propagates out of the loop), then
reads a key (`read_key` panics on a read error), then `process_key`
dispatches and possibly echoes; a `true` quit flag breaks with `Ok`. -/
def Editor.run_loop : Editor → List KeyEvent → List SessionAction × Editor × LoopExit
  | e, [] => ([], e, LoopExit.ranOut)
  | e, KeyEvent.renderFail :: _ =>
      ([SessionAction.renderFrame], e, LoopExit.renderError)
  | e, KeyEvent.readFail :: _ =>
      ([SessionAction.renderFrame, SessionAction.readKeyByte], e, LoopExit.fatalRead)
  | e, KeyEvent.keyIn c :: rest =>
      let r := e.process_key c
      let acts := [SessionAction.renderFrame, SessionAction.readKeyByte] ++
        (match r.2.2 with
          | some ch => [SessionAction.echoChar ch]
          | none => [])
      if r.2.1 then (acts, r.1, LoopExit.cleanQuit)
      else
        let next := r.1.run_loop rest
        (acts ++ next.1, next.2.1, next.2.2)

/-- `main`: `run_loop()?` then `restore_console()`.  `restore_console`
(re-apply the saved termios, then emit clear-screen + cursor-home) runs only
when `run_loop` returns `Ok`: the `?` propagates a render error before it,
and a read error panics inside the loop. -/
def mainRun (e : Editor) (events : List KeyEvent) : List SessionAction × LoopExit :=
  let r := e.run_loop events
  match r.2.2 with
  | LoopExit.cleanQuit =>
      (r.1 ++ [SessionAction.restoreTermios, SessionAction.emitClearHome], LoopExit.cleanQuit)
  | x => (r.1, x)

/-- A concrete editor over an 80×24 screen with the cursor at the origin,
as built by `Editor::new` under a standard geometry. -/
def editor0 : Editor := ⟨⟨80, 24, (0, 0)⟩⟩

/-! ### Helper lemmas -/

/-- The buffer of an `append` is the old buffer followed by the new text. -/
theorem AnsiBuffer.buffer_append (b : AnsiBuffer) (s : List Char) :
    (b.append s).buffer = b.buffer ++ s := rfl

/-- Folding `AnsiBuffer.append` over a list appends the flattened chunks. -/
theorem buffer_foldl_append (l : List Nat) (f : Nat → List Char) (b : AnsiBuffer) :
    (l.foldl (fun acc i => acc.append (f i)) b).buffer = b.buffer ++ (l.map f).flatten := by
  induction l generalizing b with
  | nil => simp
  | cons x xs ih =>
      rw [List.foldl_cons, ih, AnsiBuffer.buffer_append]
      simp [List.append_assoc]

/-- `draw_rows` only ever appends: its output is the incoming buffer followed
by `drawBody`. -/
theorem draw_rows_buffer (s : Screen) (b : AnsiBuffer) :
    (s.draw_rows b).buffer = b.buffer ++ drawBody s.width s.height := by
  unfold Screen.draw_rows
  simp only [AnsiBuffer.erase_to_end_of_line]
  rw [AnsiBuffer.buffer_append, AnsiBuffer.buffer_append, buffer_foldl_append]
  simp [drawBody, bodyRows, List.append_assoc]

/-- The newline character does not occur in the banner text. -/
theorem newline_not_mem_blurb : '\n' ∉ blurbText := by decide

/-- The tilde character does not occur in the banner text. -/
theorem tilde_not_mem_blurb : '~' ∉ blurbText := by decide

/-- The banner chunk never contains a tilde. -/
theorem tilde_not_mem_bannerChunk (w : Nat) : '~' ∉ bannerChunk w := by
  unfold bannerChunk
  intro hmem
  rcases List.mem_append.1 hmem with hmem | hmem
  · rcases List.mem_append.1 hmem with hmem | hmem
    · rcases List.mem_append.1 hmem with hmem | hmem
      · exact absurd (List.mem_replicate.1 hmem).2 (by decide)
      · exact tilde_not_mem_blurb (List.mem_of_mem_take hmem)
    · revert hmem; decide
  · revert hmem; decide

/-- The banner chunk and the placeholder chunk are never the same string. -/
theorem bannerChunk_ne_tildeChunk (w : Nat) : bannerChunk w ≠ tildeChunk := by
  intro h
  exact tilde_not_mem_bannerChunk w (h ▸ List.mem_cons_self '~' _)

/-! ### Claim theorems -/

/-- Claim C3: from any starting cursor, each of the four navigation keys
changes exactly one axis of the cursor by exactly ±1 and leaves the other
axis unchanged; every other key (in particular the quit control-character
`0x11`) leaves both axes unchanged. -/
theorem c3_navigation_dispatch (e : Editor) :
    (e.handle_navigation 'w').screen.cursor = (e.screen.cursor.1 - 1, e.screen.cursor.2) ∧
    (e.handle_navigation 's').screen.cursor = (e.screen.cursor.1 + 1, e.screen.cursor.2) ∧
    (e.handle_navigation 'a').screen.cursor = (e.screen.cursor.1, e.screen.cursor.2 - 1) ∧
    (e.handle_navigation 'd').screen.cursor = (e.screen.cursor.1, e.screen.cursor.2 + 1) ∧
    (∀ key : Char, key ≠ 'w' → key ≠ 's' → key ≠ 'a' → key ≠ 'd' →
      (e.handle_navigation key).screen.cursor = e.screen.cursor) := by
  refine ⟨?_, ?_, ?_, ?_, ?_⟩
  · simp [Editor.handle_navigation, Screen.update_cursor_location, sub_eq_add_neg]
  · simp [Editor.handle_navigation, Screen.update_cursor_location]
  · simp [Editor.handle_navigation, Screen.update_cursor_location, sub_eq_add_neg]
  · simp [Editor.handle_navigation, Screen.update_cursor_location]
  · intro key hw hs ha hd
    simp [Editor.handle_navigation, hw, hs, ha, hd]

/-- Witness for C3 at a concrete editor: `'w'` moves the row axis down by one
and the quit control-character `0x11` leaves the cursor unchanged. -/
theorem c3_navigation_dispatch_witness :
    (editor0.handle_navigation 'w').screen.cursor =
      (editor0.screen.cursor.1 - 1, editor0.screen.cursor.2) ∧
    (editor0.handle_navigation (Char.ofNat 0x11)).screen.cursor = editor0.screen.cursor :=
  ⟨(c3_navigation_dispatch editor0).1,
   (c3_navigation_dispatch editor0).2.2.2.2 (Char.ofNat 0x11)
     (by decide) (by decide) (by decide) (by decide)⟩

/-- Claim C4: when the banner's character count `L` fits the width `w`, the
banner row is exactly `floor((w - L) / 2)` spaces followed by the untruncated
banner; when `L` exceeds `w`, the banner is truncated to exactly `w`
characters. -/
theorem c4_banner_centering (w : Nat) :
    (blurbText.length ≤ w →
      bannerChunk w =
        List.replicate ((w - blurbText.length) / 2) ' ' ++ blurbText ++
          escEraseToEol ++ crlf) ∧
    (w < blurbText.length → (blurbLine w).length = w) := by
  constructor
  · intro hle
    have hline : blurbLine w = blurbText := List.take_of_length_le hle
    simp [bannerChunk, bannerPad, hline]
  · intro hlt
    simp [blurbLine, List.length_take]
    omega

/-- Witness for C4: at width 40 the banner (30 characters) is centered with
5 spaces of padding; at width 5 it is truncated to exactly 5 characters. -/
theorem c4_banner_centering_witness :
    bannerChunk 40 =
      List.replicate ((40 - blurbText.length) / 2) ' ' ++ blurbText ++
        escEraseToEol ++ crlf ∧
    (blurbLine 5).length = 5 :=
  ⟨(c4_banner_centering 40).1 (by decide), (c4_banner_centering 5).2 (by decide)⟩

/-- Claim C9: the padding subtraction `width - len` cannot underflow: the
banner is truncated to at most `width` characters first, so its glyph count
is at most `width` (and at most the untruncated length; the text is pure
ASCII, so its character count equals its byte count). -/
theorem c9_no_padding_underflow (w : Nat) :
    (blurbLine w).length ≤ w ∧
    (blurbLine w).length ≤ blurbText.length ∧
    (blurbText.all fun c => decide (c.toNat < 128)) = true := by
  refine ⟨?_, ?_, by decide⟩
  · simp [blurbLine, List.length_take]
  · simp [blurbLine, List.length_take]

/-- Claim C5 counterexample: the probe performs no positivity check — when the
ioctl succeeds (return code 0) with an all-zero window structure, `get`
returns success with zero columns and zero rows, so it is not true that every
success carries strictly positive dimensions. -/
theorem c5_counterexample :
    ¬ (∀ (r : Int) (wz : Winsize) (cols rws : Nat),
        winsizeGet r wz = Except.ok (cols, rws) → 0 < cols ∧ 0 < rws) := by
  intro hAll
  have h := hAll 0 ⟨0, 0, 0, 0⟩ 0 0 rfl
  exact absurd h.1 (by decide)

/-- Claim C5 (amended): geometry acquisition fails exactly when the ioctl
reports failure; on a zero return code it succeeds with whatever column and
row counts the OS filled in, unchecked (so zero dimensions pass through). -/
theorem c5_probe_passthrough (r : Int) (wz : Winsize) :
    (r = 0 → winsizeGet r wz = Except.ok (wz.ws_col, wz.ws_row)) ∧
    (r ≠ 0 → winsizeGet r wz = Except.error (toString r)) := by
  constructor
  · intro h; simp [winsizeGet, h]
  · intro h; simp [winsizeGet, h]

/-- Witness for C5 (amended) at concrete inputs: a zero return code yields the
reported 80×24 geometry, a `-1` return code yields an error. -/
theorem c5_probe_passthrough_witness :
    winsizeGet 0 ⟨24, 80, 0, 0⟩ = Except.ok (80, 24) ∧
    winsizeGet (-1) ⟨24, 80, 0, 0⟩ = Except.error (toString (-1 : Int)) :=
  ⟨(c5_probe_passthrough 0 ⟨24, 80, 0, 0⟩).1 rfl,
   (c5_probe_passthrough (-1) ⟨24, 80, 0, 0⟩).2 (by decide)⟩

/-- Claim C6 counterexample: the navigation key `'w'` IS echoed — `process_key`
matches only the quit control-character specially and prints every other key,
navigation keys included, so it is false that navigation keys are not echoed. -/
theorem c6_counterexample :
    (editor0.process_key 'w').2.2 = some 'w' ∧
    (editor0.process_key 'w').2.2 ≠ none := by
  refine ⟨rfl, ?_⟩
  intro h
  exact Option.noConfusion h

/-- Claim C6 (amended): during key dispatch every key other than the quit
control-character — the four navigation letters included — is echoed to the
output stream as a literal printed character; only the quit control-character
is not echoed. -/
theorem c6_echo_all_but_quit (e : Editor) (key : Char) :
    (e.process_key key).2.2 = if key = ctrl_key 'q' then none else some key := by
  by_cases h : key = ctrl_key 'q' <;> simp [Editor.process_key, h]

/-- Claim C8: masking `'q'` (0x71) with 0x1F yields exactly 0x11, and the
session loop's quit flag is set exactly when the key read equals this masked
value. -/
theorem c8_quit_mask :
    ctrl_key 'q' = Char.ofNat 0x11 ∧
    ∀ (e : Editor) (key : Char),
      ((e.process_key key).2.1 = true ↔ key = Char.ofNat 0x11) := by
  have hq : ctrl_key 'q' = Char.ofNat 0x11 := by decide
  refine ⟨hq, ?_⟩
  intro e key
  by_cases h : key = ctrl_key 'q'
  · subst h
    simp [Editor.process_key, hq]
  · have : key ≠ Char.ofNat 0x11 := fun hk => h (hq ▸ hk)
    simp [Editor.process_key, h, this]

/-- Each banner row contains exactly one newline (the one in its CRLF). -/
theorem count_newline_bannerChunk (w : Nat) : (bannerChunk w).count '\n' = 1 := by
  unfold bannerChunk
  rw [List.count_append, List.count_append, List.count_append]
  have h1 : (List.replicate (bannerPad w) ' ').count '\n' = 0 :=
    List.count_eq_zero.2 fun hm => by
      have := (List.mem_replicate.1 hm).2
      simp at this
  have h2 : (blurbLine w).count '\n' = 0 :=
    List.count_eq_zero.2 fun hm => newline_not_mem_blurb (List.mem_of_mem_take hm)
  rw [h1, h2]
  decide

/-- Flattening a list of chunks that each contain `k` copies of `c` yields
`length * k` copies of `c`. -/
theorem count_flatten_const (c : Char) (l : List (List Char)) (k : Nat)
    (h : ∀ r ∈ l, r.count c = k) : l.flatten.count c = l.length * k := by
  induction l with
  | nil => simp
  | cons x xs ih =>
      have hx := h x (List.mem_cons_self x xs)
      have hxs := ih fun r hr => h r (List.mem_cons_of_mem x hr)
      simp only [List.flatten_cons, List.count_append, hx, hxs, List.length_cons]
      ring

/-- Claim C2: for every geometry with positive width and height, one call to
`draw_rows` produces exactly `h - 1` rows each terminated by CRLF (and
containing no other newline), followed by exactly one final unterminated row —
a `~` with no trailing newline: the whole body has `h - 1` newlines and ends
in `~`. -/
theorem c2_frame_rows (w h : Nat) (hw : 0 < w) (hh : 0 < h) :
    (bodyRows w h).length = h - 1 ∧
    (∀ r ∈ bodyRows w h, ∃ pre, r = pre ++ crlf ∧ '\n' ∉ pre) ∧
    (∀ cur : Int × Int,
      ((Screen.mk w h cur).draw_rows AnsiBuffer.new).buffer = drawBody w h) ∧
    (drawBody w h).count '\n' = h - 1 ∧
    (drawBody w h).getLast? = some '~' := by
  refine ⟨?_, ?_, ?_, ?_, ?_⟩
  · simp [bodyRows]
  · intro r hr
    rcases List.mem_map.1 hr with ⟨i, _, hi⟩
    rw [← hi]
    unfold rowChunk
    by_cases hb : i = h / 3
    · rw [if_pos hb]
      refine ⟨(List.replicate (bannerPad w) ' ' ++ blurbLine w) ++ escEraseToEol,
        by simp [bannerChunk, List.append_assoc], ?_⟩
      intro hmem
      rcases List.mem_append.1 hmem with hmem | hmem
      · rcases List.mem_append.1 hmem with hmem | hmem
        · exact absurd (List.mem_replicate.1 hmem).2 (by decide)
        · exact newline_not_mem_blurb (List.mem_of_mem_take hmem)
      · revert hmem; decide
    · rw [if_neg hb]
      exact ⟨'~' :: escEraseToEol, rfl, by decide⟩
  · intro cur
    rw [draw_rows_buffer]
    rfl
  · have hper : ∀ r ∈ bodyRows w h, r.count '\n' = 1 := by
      intro r hr
      rcases List.mem_map.1 hr with ⟨i, _, hi⟩
      rw [← hi]
      unfold rowChunk
      by_cases hb : i = h / 3
      · rw [if_pos hb]; exact count_newline_bannerChunk w
      · rw [if_neg hb]; decide
    have hesc : List.count '\n' escEraseToEol = 0 := by decide
    have htil : List.count '\n' ['~'] = 0 := by decide
    unfold drawBody
    rw [List.count_append, List.count_append,
      count_flatten_const '\n' (bodyRows w h) 1 hper, hesc, htil]
    simp [bodyRows]
  · exact List.getLast?_concat _

/-- Witness for C2 at geometry 5×4: three CRLF-terminated rows, three
newlines in the body, and a final `~`. -/
theorem c2_frame_rows_witness :
    (bodyRows 5 4).length = 4 - 1 ∧
    (drawBody 5 4).count '\n' = 4 - 1 ∧
    (drawBody 5 4).getLast? = some '~' :=
  ⟨(c2_frame_rows 5 4 (by decide) (by decide)).1,
   (c2_frame_rows 5 4 (by decide) (by decide)).2.2.2.1,
   (c2_frame_rows 5 4 (by decide) (by decide)).2.2.2.2⟩

/-- Claim C10: the banner branch of the row loop is taken iff the height is at
least 3 (the banner row index `h / 3` is 0 when `h < 3`, and the loop starts
at index 1); for heights below 3 every body row is the `~` placeholder. -/
theorem c10_banner_iff_height (w h : Nat) :
    ((∃ i ∈ List.range' 1 (h - 1), rowChunk w h i = bannerChunk w) ↔ 3 ≤ h) ∧
    (h < 3 → ∀ i ∈ List.range' 1 (h - 1), rowChunk w h i = tildeChunk) := by
  constructor
  · constructor
    · rintro ⟨i, hi, hrow⟩
      rcases List.mem_range'.1 hi with ⟨j, hj, hij⟩
      by_cases hb : i = h / 3
      · omega
      · rw [rowChunk, if_neg hb] at hrow
        exact absurd hrow.symm (bannerChunk_ne_tildeChunk w)
    · intro h3
      refine ⟨h / 3, List.mem_range'.2 ⟨h / 3 - 1, by omega, by omega⟩, ?_⟩
      simp [rowChunk]
  · intro hlt i hi
    rcases List.mem_range'.1 hi with ⟨j, hj, hij⟩
    have hb : i ≠ h / 3 := by omega
    simp [rowChunk, hb]

/-- Witness for C10 at geometry 80×2: the only body row is the placeholder. -/
theorem c10_banner_iff_height_witness :
    rowChunk 80 2 1 = tildeChunk :=
  (c10_banner_iff_height 80 2).2 (by decide) 1 (by decide)

/-- Claim C7 counterexample: the composed frame does NOT begin with
cursor-hide, clear-screen, cursor-home — `refresh` never appends the
clear-screen sequence (only `restore_console` does).  At geometry 5×4 the
first 13 characters of the frame are cursor-hide, cursor-home and the start
of the first row, not the claimed three-sequence preamble. -/
theorem c7_counterexample :
    ¬ ((Screen.mk 5 4 (0, 0)).refresh_frame.take 13 =
        escHideCursor ++ escClearScreen ++ escMoveTopLeft) := by
  decide

/-- Claim C7 (amended): every composed frame begins with a preamble of the
cursor-hide sequence followed directly by the cursor-home sequence (no
clear-screen), then the row-by-row body, and ends with a postamble of
cursor-home, cursor repositioning to the tracked cursor, and cursor-show. -/
theorem c7_frame_layout (s : Screen) :
    s.refresh_frame =
      escHideCursor ++ escMoveTopLeft ++ drawBody s.width s.height ++
        escMoveTopLeft ++ escMoveCursorTo s.cursor.1 s.cursor.2 ++ escShowCursor := by
  simp only [Screen.refresh_frame, AnsiBuffer.hide_cursor, AnsiBuffer.move_top_left,
    AnsiBuffer.show_cursor, AnsiBuffer.move_cursor_to, AnsiBuffer.buffer_append,
    draw_rows_buffer, AnsiBuffer.new, List.append_assoc, List.nil_append]

/-- Claim C1: evaluation of the session model at the failing inputs.  On the
clean-quit path `main` runs `restore_console` exactly once; but when
`refresh` fails the `?` in `main` propagates the error before
`restore_console`, and when the read fails `read_key` aborts inside the
loop — on both of those exit paths the restore action never appears in the
trace, contradicting the claim that restoration happens on every exit path. -/
theorem c1_restore_only_on_clean_quit :
    mainRun editor0 [KeyEvent.renderFail] =
      ([SessionAction.renderFrame], LoopExit.renderError) ∧
    (mainRun editor0 [KeyEvent.renderFail]).1.count SessionAction.restoreTermios = 0 ∧
    (mainRun editor0 [KeyEvent.readFail]).2 = LoopExit.fatalRead ∧
    (mainRun editor0 [KeyEvent.readFail]).1.count SessionAction.restoreTermios = 0 ∧
    (mainRun editor0 [KeyEvent.keyIn (ctrl_key 'q')]).2 = LoopExit.cleanQuit ∧
    (mainRun editor0 [KeyEvent.keyIn (ctrl_key 'q')]).1.count
      SessionAction.restoreTermios = 1 := by
  refine ⟨rfl, rfl, rfl, rfl, rfl, rfl⟩
